import Mathlib

set_option maxRecDepth 100000

/-!
Verification of the linktor Rust SDK core (request orchestrator and webhook
verification pipeline) against its natural-language specification.

Shallow embedding conventions:
- Rust byte slices (payloads, secrets as bytes) become `List Nat` with values
  kept below 256 by construction of the operations that consume them.
- Rust `String`/`&str` values become Lean `String`; the hex digests produced
  by the signature engine are ASCII, where character count and byte count
  coincide, so string length and per-character comparison model the byte-level
  operations of the source faithfully.
- Machine integers (`i64`, `u64`, `u32`) become `Nat`/`Int` with explicit
  `% 2 ^ 32` masking where 32-bit overflow matters (inside SHA-256);
  overflow of `i64` timestamps and `u64` retry values is not modelled.
- `Utc::now()` becomes an explicit `now : Int` parameter.
- Fallible Rust paths returning `Result` become `Except LinktorError`.
- External crates (sha2, hmac, hex, serde_json, chrono) are not part of the
  repository; they are modelled concretely and faithfully to their documented
  behavior: SHA-256 and HMAC are implemented in full, JSON parsing is
  implemented for the escape-free integer fragment of JSON, and chrono
  datetime parsing is modelled as an RFC3339 pattern check.
-/

/- ===== Bytes and strings ===== -/

/-- UTF-8 encoding of a single Unicode code point, as byte values. -/
def charUtf8 (n : Nat) : List Nat :=
  if n < 128 then [n]
  else if n < 2048 then [192 + n / 64, 128 + n % 64]
  else if n < 65536 then [224 + n / 4096, 128 + (n / 64) % 64, 128 + n % 64]
  else [240 + n / 262144, 128 + (n / 4096) % 64, 128 + (n / 64) % 64, 128 + n % 64]

/-- UTF-8 bytes of a string, modelling Rust `str::as_bytes`. -/
def utf8Bytes (s : String) : List Nat :=
  (s.data.map (fun c => charUtf8 c.toNat)).flatten

/-- Code points of an ASCII string as byte values, for building payloads. -/
def asciiBytes (s : String) : List Nat :=
  s.data.map Char.toNat

/- ===== SHA-256 (models the external sha2 crate) ===== -/

/-- Truncate to a 32-bit word. -/
def w32 (n : Nat) : Nat := n % 4294967296

/-- Right rotation of a 32-bit word. -/
def rotr (n x : Nat) : Nat := w32 ((x >>> n) ||| (x <<< (32 - n)))

def bigSigma0 (x : Nat) : Nat := rotr 2 x ^^^ rotr 13 x ^^^ rotr 22 x
def bigSigma1 (x : Nat) : Nat := rotr 6 x ^^^ rotr 11 x ^^^ rotr 25 x
def smallSigma0 (x : Nat) : Nat := rotr 7 x ^^^ rotr 18 x ^^^ (x >>> 3)
def smallSigma1 (x : Nat) : Nat := rotr 17 x ^^^ rotr 19 x ^^^ (x >>> 10)
def chFn (x y z : Nat) : Nat := (x &&& y) ^^^ ((x ^^^ 4294967295) &&& z)
def majFn (x y z : Nat) : Nat := (x &&& y) ^^^ (x &&& z) ^^^ (y &&& z)

/-- The 64 SHA-256 round constants. -/
def shaK : List Nat :=
  [1116352408, 1899447441, 3049323471, 3921009573, 961987163, 1508970993,
   2453635748, 2870763221, 3624381080, 310598401, 607225278, 1426881987,
   1925078388, 2162078206, 2614888103, 3248222580, 3835390401, 4022224774,
   264347078, 604807628, 770255983, 1249150122, 1555081692, 1996064986,
   2554220882, 2821834349, 2952996808, 3210313671, 3336571891, 3584528711,
   113926993, 338241895, 666307205, 773529912, 1294757372, 1396182291,
   1695183700, 1986661051, 2177026350, 2456956037, 2730485921, 2820302411,
   3259730800, 3345764771, 3516065817, 3600352804, 4094571909, 275423344,
   430227734, 506948616, 659060556, 883997877, 958139571, 1322822218,
   1537002063, 1747873779, 1955562222, 2024104815, 2227730452, 2361852424,
   2428436474, 2756734187, 3204031479, 3329325298]

/-- Working state of the compression function: eight 32-bit words. -/
structure Hash8 where
  a : Nat
  b : Nat
  c : Nat
  d : Nat
  e : Nat
  f : Nat
  g : Nat
  h : Nat

/-- Initial SHA-256 hash value. -/
def shaInit : Hash8 :=
  ⟨1779033703, 3144134277, 1013904242, 2773480762,
   1359893119, 2600822924, 528734635, 1541459225⟩

/-- Extend the 16-word message block to the 64-word schedule, one word per step. -/
def extendW : Nat → List Nat → List Nat
  | 0, ws => ws
  | k + 1, ws =>
    let t := ws.length
    let w := w32 (smallSigma1 (ws.getD (t - 2) 0) + ws.getD (t - 7) 0 +
                  smallSigma0 (ws.getD (t - 15) 0) + ws.getD (t - 16) 0)
    extendW k (ws ++ [w])

/-- One SHA-256 round, driven by a pair of round constant and schedule word. -/
def compressStep (st : Hash8) (kw : Nat × Nat) : Hash8 :=
  let t1 := w32 (st.h + bigSigma1 st.e + chFn st.e st.f st.g + kw.1 + kw.2)
  let t2 := w32 (bigSigma0 st.a + majFn st.a st.b st.c)
  ⟨w32 (t1 + t2), st.a, st.b, st.c, w32 (st.d + t1), st.e, st.f, st.g⟩

/-- Process one 16-word block into the running hash value. -/
def compressBlock (hs : Hash8) (block : List Nat) : Hash8 :=
  let ws := extendW 48 block
  let st := (List.zip shaK ws).foldl compressStep hs
  ⟨w32 (hs.a + st.a), w32 (hs.b + st.b), w32 (hs.c + st.c), w32 (hs.d + st.d),
   w32 (hs.e + st.e), w32 (hs.f + st.f), w32 (hs.g + st.g), w32 (hs.h + st.h)⟩

/-- Big-endian 8-byte encoding of a (64-bit) length value. -/
def be64 (n : Nat) : List Nat :=
  [n / 72057594037927936 % 256, n / 281474976710656 % 256,
   n / 1099511627776 % 256, n / 4294967296 % 256,
   n / 16777216 % 256, n / 65536 % 256, n / 256 % 256, n % 256]

/-- Big-endian 4-byte encoding of a 32-bit word. -/
def be32 (n : Nat) : List Nat :=
  [n / 16777216 % 256, n / 65536 % 256, n / 256 % 256, n % 256]

/-- SHA-256 padding: append 0x80, zeros to 56 mod 64, then the bit length. -/
def padMsg (msg : List Nat) : List Nat :=
  msg ++ 128 :: List.replicate ((119 - msg.length % 64) % 64) 0 ++ be64 (8 * msg.length)

/-- Group padded bytes into big-endian 32-bit words (fuel is the list length). -/
def wordsOf : Nat → List Nat → List Nat
  | 0, _ => []
  | _ + 1, b0 :: b1 :: b2 :: b3 :: bs =>
    (((b0 * 256 + b1) * 256 + b2) * 256 + b3) :: wordsOf bs.length bs
  | _ + 1, _ => []

/-- Group the word stream into 16-word blocks (fuel is the list length). -/
def blocksOf : Nat → List Nat → List (List Nat)
  | 0, _ => []
  | _ + 1, [] => []
  | fuel + 1, ws => ws.take 16 :: blocksOf fuel (ws.drop 16)

/-- Full SHA-256 digest of a byte list, as 32 bytes.
Models the external sha2 crate; input bytes are masked to 8 bits, a no-op for
genuine byte values. -/
def sha256 (msg : List Nat) : List Nat :=
  let padded := padMsg (msg.map (fun b => b % 256))
  let ws := wordsOf padded.length padded
  let hs := (blocksOf (ws.length + 1) ws).foldl compressBlock shaInit
  be32 hs.a ++ be32 hs.b ++ be32 hs.c ++ be32 hs.d ++
  be32 hs.e ++ be32 hs.f ++ be32 hs.g ++ be32 hs.h

/-- HMAC-SHA256 with the standard 64-byte block size.
Models the external hmac crate used by the signature engine. -/
def hmacSha256 (key msg : List Nat) : List Nat :=
  let k0 := if key.length > 64 then sha256 key else key
  let kp := k0 ++ List.replicate (64 - k0.length) 0
  sha256 ((kp.map (fun b => b ^^^ 92)) ++ sha256 ((kp.map (fun b => b ^^^ 54)) ++ msg))

/-- Lowercase hex digit for a value below 16. -/
def hexDigit (n : Nat) : Char :=
  Char.ofNat (if n < 10 then 48 + n else 87 + n)

/-- Lowercase hex encoding of a byte list, modelling the external hex crate. -/
def hexEncode (bs : List Nat) : String :=
  String.mk ((bs.map (fun b => [hexDigit (b / 16 % 16), hexDigit (b % 16)])).flatten)

example : hexEncode (sha256 (asciiBytes "abc")) =
    "ba7816bf8f01cfea414140de5dae2223b00361a396177a9cb410ff61f20015ad" := by rfl
example : hexEncode (hmacSha256 (utf8Bytes "k") (asciiBytes "a")) =
    "78da91511e675587f5b9df78bedebaf5560da2abb88162ee875dcdf744951d9e" := by rfl

/- ===== Signature engine (src/sdks/rust/src/webhook.rs) ===== -/

/-- Embeds `compute_signature` from webhook.rs: HMAC-SHA256 over the payload
bytes keyed by the UTF-8 bytes of the secret, hex-encoded lowercase. -/
def compute_signature (payload : List Nat) (secret : String) : String :=
  hexEncode (hmacSha256 (utf8Bytes secret) payload)

/-- Embeds `verify_signature` from webhook.rs: reject empty signature or
secret, reject length mismatch, then accumulate a bitwise OR of XOR
differences and test it against zero at the end. The Rust code compares the
byte streams of two strings; the expected digest is ASCII hex, for which the
character-level comparison used here decides equality of the strings exactly
as the byte-level one does. -/
def verify_signature (payload : List Nat) (signature : String) (secret : String) : Bool :=
  if signature = "" || secret = "" then false
  else
    let expected := compute_signature payload secret
    if expected.length != signature.length then false
    else
      ((List.zip expected.data signature.data).foldl
        (fun acc p => acc ||| (p.1.toNat ^^^ p.2.toNat)) 0) == 0

/- ===== JSON values (models the external serde_json crate) ===== -/

/-- JSON values as used by serde_json, with numbers restricted to integers
(no claim under verification involves fractional numbers). -/
inductive Json where
  | null
  | bool (b : Bool)
  | num (n : Int)
  | str (s : String)
  | arr (elems : List Json)
  | obj (fields : List (String × Json))

/-- Whitespace bytes accepted between JSON tokens. -/
def isWsByte (b : Nat) : Bool := b = 32 || b = 9 || b = 10 || b = 13

/-- Drop leading JSON whitespace. -/
def skipWs : List Nat → List Nat
  | [] => []
  | b :: bs => if isWsByte b then skipWs bs else b :: bs

/-- Characters of a JSON string body up to the closing quote.
Escape sequences are not modelled: a backslash rejects the input. -/
def strChars : List Nat → Option (List Char × List Nat)
  | [] => none
  | b :: bs =>
    if b = 34 then some ([], bs)
    else if b = 92 then none
    else (strChars bs).map (fun p => (Char.ofNat b :: p.1, p.2))

/-- Split off a maximal run of ASCII digit bytes. -/
def takeDigits : List Nat → (List Nat × List Nat)
  | [] => ([], [])
  | b :: bs =>
    if 48 ≤ b && b ≤ 57 then
      let p := takeDigits bs
      (b :: p.1, p.2)
    else ([], b :: bs)

/-- Decimal value of a run of digit bytes. -/
def digitsToNat (ds : List Nat) : Nat :=
  ds.foldl (fun acc d => acc * 10 + (d - 48)) 0

/-- Parse a nonempty digit run into its value and the remaining input. -/
def digitsVal (input : List Nat) : Option (Nat × List Nat) :=
  match takeDigits input with
  | ([], _) => none
  | (ds, rest) => some (digitsToNat ds, rest)

mutual

/-- Modelled from the spec: JSON parsing as performed by the external
serde_json crate, for the escape-free integer fragment of JSON sufficient for
the bodies and payloads under verification. Fuel decreases on every recursive
call; the entry point supplies more fuel than any input can consume. -/
def parseVal : Nat → List Nat → Option (Json × List Nat)
  | 0, _ => none
  | fuel + 1, input =>
    match skipWs input with
    | [] => none
    | b :: bs =>
      if b = 110 then
        match bs with
        | 117 :: 108 :: 108 :: rest => some (Json.null, rest)
        | _ => none
      else if b = 116 then
        match bs with
        | 114 :: 117 :: 101 :: rest => some (Json.bool true, rest)
        | _ => none
      else if b = 102 then
        match bs with
        | 97 :: 108 :: 115 :: 101 :: rest => some (Json.bool false, rest)
        | _ => none
      else if b = 34 then
        (strChars bs).map (fun p => (Json.str (String.mk p.1), p.2))
      else if b = 45 then
        match digitsVal bs with
        | some (n, rest) => some (Json.num (-(n : Int)), rest)
        | none => none
      else if 48 ≤ b && b ≤ 57 then
        match digitsVal (b :: bs) with
        | some (n, rest) => some (Json.num (n : Int), rest)
        | none => none
      else if b = 91 then
        match skipWs bs with
        | 93 :: rest => some (Json.arr [], rest)
        | _ => (parseElems fuel bs).map (fun p => (Json.arr p.1, p.2))
      else if b = 123 then
        match skipWs bs with
        | 125 :: rest => some (Json.obj [], rest)
        | _ => (parseMembs fuel bs).map (fun p => (Json.obj p.1, p.2))
      else none

/-- Comma-separated array elements up to the closing bracket. -/
def parseElems : Nat → List Nat → Option (List Json × List Nat)
  | 0, _ => none
  | fuel + 1, input =>
    match parseVal fuel input with
    | none => none
    | some (v, rest) =>
      match skipWs rest with
      | 44 :: rest2 => (parseElems fuel rest2).map (fun p => (v :: p.1, p.2))
      | 93 :: rest2 => some ([v], rest2)
      | _ => none

/-- Comma-separated object members up to the closing brace. -/
def parseMembs : Nat → List Nat → Option (List (String × Json) × List Nat)
  | 0, _ => none
  | fuel + 1, input =>
    match skipWs input with
    | 34 :: bs =>
      match strChars bs with
      | none => none
      | some (cs, rest) =>
        match skipWs rest with
        | 58 :: rest2 =>
          match parseVal fuel rest2 with
          | none => none
          | some (v, rest3) =>
            match skipWs rest3 with
            | 44 :: rest4 => (parseMembs fuel rest4).map (fun p => ((String.mk cs, v) :: p.1, p.2))
            | 125 :: rest4 => some ([(String.mk cs, v)], rest4)
            | _ => none
        | _ => none
    | _ => none

end

/-- Parse a complete JSON document from bytes: one value and nothing but
trailing whitespace after it, as serde_json requires. -/
def parseJson (bytes : List Nat) : Option Json :=
  match parseVal (bytes.length + 1) bytes with
  | some (j, rest) => if skipWs rest = [] then some j else none
  | none => none

/-- Parse a complete JSON document from a string body. -/
def parseJsonStr (s : String) : Option Json :=
  parseJson (asciiBytes s)

/- ===== serde-style decoders (src/sdks/rust/src/types/common.rs) ===== -/

/-- Decode a serde optional struct field: an absent or null field is None, a
present non-null field must decode, and its failure fails the whole struct.
Lookup takes the first occurrence of the key; serde_json rejects duplicate
keys for structs, so the two agree on every well-formed object. -/
def decodeOptField (dec : Json → Option β) (fields : List (String × Json)) (key : String) :
    Option (Option β) :=
  match List.lookup key fields with
  | none => some none
  | some Json.null => some none
  | some v => (dec v).map some

/-- Decode a required serde struct field. -/
def decodeReqField (dec : Json → Option β) (fields : List (String × Json)) (key : String) :
    Option β :=
  (List.lookup key fields).bind dec

/-- serde decoding of a JSON string. -/
def decodeStr : Json → Option String
  | Json.str s => some s
  | _ => none

/-- serde decoding of a JSON object into a string-keyed map, as for
serde_json Value maps. -/
def decodeObjMap : Json → Option (List (String × Json))
  | Json.obj fields => some fields
  | _ => none

/-- Embeds `ApiError` from types/common.rs: code, message, optional details. -/
structure ApiError where
  code : String
  message : String
  details : Option (List (String × Json))

/-- serde decoding of `ApiError`. -/
def decodeApiError (j : Json) : Option ApiError :=
  match j with
  | Json.obj fields =>
    (decodeReqField decodeStr fields "code").bind fun code =>
      (decodeReqField decodeStr fields "message").bind fun message =>
        (decodeOptField decodeObjMap fields "details").map fun details =>
          ⟨code, message, details⟩
  | _ => none

/-- Embeds `ApiResponse<T>` from types/common.rs: the response envelope. -/
structure ApiResponse (α : Type) where
  success : Bool
  data : Option α
  error : Option ApiError

/-- serde decoding of `ApiResponse<T>`, given a decoder for `T`: requires a
boolean success field; data and error are optional fields whose presence
forces a successful decode. -/
def decodeEnvelope (decT : Json → Option α) (j : Json) : Option (ApiResponse α) :=
  match j with
  | Json.obj fields =>
    match List.lookup "success" fields with
    | some (Json.bool b) =>
      (decodeOptField decT fields "data").bind fun data =>
        (decodeOptField decodeApiError fields "error").map fun err =>
          ⟨b, data, err⟩
    | _ => none
  | _ => none

/- ===== Webhook event (src/sdks/rust/src/types/webhook.rs) ===== -/

/-- Header name constant `SIGNATURE_HEADER` from types/webhook.rs. -/
def SIGNATURE_HEADER : String := "X-Linktor-Signature"

/-- Header name constant `TIMESTAMP_HEADER` from types/webhook.rs. -/
def TIMESTAMP_HEADER : String := "X-Linktor-Timestamp"

/-- Constant `DEFAULT_TOLERANCE_SECONDS` from types/webhook.rs. -/
def DEFAULT_TOLERANCE_SECONDS : Int := 300

/-- Modelled from the spec: the RFC3339 datetime parsing done by the external
chrono crate for the timestamp field, modelled as a shape check of the form
YYYY-MM-DDTHH:MM:SSZ over the raw string, which is kept as the field value. -/
def isRfc3339 (s : String) : Bool :=
  match s.data.map Char.toNat with
  | [y1, y2, y3, y4, 45, mo1, mo2, 45, d1, d2, 84, h1, h2, 58, mi1, mi2, 58, s1, s2, 90] =>
    [y1, y2, y3, y4, mo1, mo2, d1, d2, h1, h2, mi1, mi2, s1, s2].all
      (fun c => 48 ≤ c && c ≤ 57)
  | _ => false

/-- Embeds `WebhookEvent` from types/webhook.rs: id, event type (serialized
as the field named type), timestamp (kept as its RFC3339 string), tenant id,
and an optional free-form data map. -/
structure WebhookEvent where
  id : String
  event_type : String
  timestamp : String
  tenant_id : String
  data : Option (List (String × Json))

/-- serde decoding of `WebhookEvent` in camelCase, with the timestamp
required to be a chrono-parseable datetime string. -/
def decodeEvent (j : Json) : Option WebhookEvent :=
  match j with
  | Json.obj fields =>
    (decodeReqField decodeStr fields "id").bind fun id =>
      (decodeReqField decodeStr fields "type").bind fun etype =>
        (decodeReqField decodeStr fields "timestamp").bind fun ts =>
          if isRfc3339 ts then
            (decodeReqField decodeStr fields "tenantId").bind fun tenant =>
              (decodeOptField decodeObjMap fields "data").map fun data =>
                ⟨id, etype, ts, tenant, data⟩
          else none
  | _ => none

/-- serde_json::from_slice for the webhook event payload. -/
def decodeWebhookEvent (payload : List Nat) : Option WebhookEvent :=
  (parseJson payload).bind decodeEvent

/- ===== Error taxonomy (src/sdks/rust/src/error.rs) ===== -/

/-- Embeds `LinktorError` from error.rs; payloads of the transport variants
are reduced to their message strings. -/
inductive LinktorError where
  | Authentication (message : String) (request_id : Option String)
  | Authorization (message : String) (request_id : Option String)
  | NotFound (message : String) (request_id : Option String)
  | Validation (message : String) (request_id : Option String)
  | RateLimit (retry_after : Nat) (message : String) (request_id : Option String)
  | Server (message : String) (request_id : Option String)
  | Network (message : String)
  | Serialization (message : String)
  | WebhookVerification (message : String)
  | WebSocket (message : String)
  | Unknown (message : String) (status_code : Option Nat)
deriving DecidableEq

/-- Embeds `LinktorError::from_status` from error.rs. -/
def LinktorError.from_status (status : Nat) (message : String) (request_id : Option String) :
    LinktorError :=
  if status = 400 then .Validation message request_id
  else if status = 401 then .Authentication message request_id
  else if status = 403 then .Authorization message request_id
  else if status = 404 then .NotFound message request_id
  else if status = 429 then .RateLimit 60 message request_id
  else if 500 ≤ status && status ≤ 599 then .Server message request_id
  else .Unknown message (some status)

/-- Embeds the accessor `LinktorError::request_id` from error.rs. -/
def LinktorError.request_id : LinktorError → Option String
  | .Authentication _ rid => rid
  | .Authorization _ rid => rid
  | .NotFound _ rid => rid
  | .Validation _ rid => rid
  | .RateLimit _ _ rid => rid
  | .Server _ rid => rid
  | _ => none

/- ===== Integer parsing (models Rust str::parse) ===== -/

/-- Value of an all-digit nonempty character list, else None. -/
def parseDigits (cs : List Char) : Option Nat :=
  match cs with
  | [] => none
  | _ =>
    if cs.all (fun c => 48 ≤ c.toNat && c.toNat ≤ 57) then
      some (cs.foldl (fun acc c => acc * 10 + (c.toNat - 48)) 0)
    else none

/-- Models str::parse for i64: an optional sign followed by one or more
ASCII digits and nothing else. Overflow of the 64-bit range is not modelled. -/
def parseInt (s : String) : Option Int :=
  match s.data with
  | [] => none
  | c :: rest =>
    if c = '+' then (parseDigits rest).map (fun n => (n : Int))
    else if c = '-' then (parseDigits rest).map (fun n => -(n : Int))
    else (parseDigits (c :: rest)).map (fun n => (n : Int))

/-- Models str::parse for u64: an optional plus sign followed by one or more
ASCII digits and nothing else. Overflow of the 64-bit range is not modelled. -/
def parseNatU64 (s : String) : Option Nat :=
  match s.data with
  | [] => none
  | c :: rest =>
    if c = '+' then parseDigits rest
    else parseDigits (c :: rest)

/- ===== Webhook verifier (src/sdks/rust/src/webhook.rs) ===== -/

/-- Models str::to_lowercase for the ASCII header-name constants on which it
is invoked, where Unicode and ASCII lowering coincide. -/
def lowerAscii (s : String) : String :=
  String.mk (s.data.map (fun c =>
    if 65 ≤ c.toNat && c.toNat ≤ 90 then Char.ofNat (c.toNat + 32) else c))

/-- Header lookup with the all-lowercase fallback used by `verify`:
the canonical name first, then its lowercase form.
Headers are modelled as a partial map from names to values. -/
def headerLookup (headers : String → Option String) (name : String) : Option String :=
  match headers name with
  | some v => some v
  | none => headers (lowerAscii name)

/-- Signature string resolved from the headers, empty when absent,
as webhook.rs builds it before the emptiness check. -/
def sigOf (headers : String → Option String) : String :=
  (headerLookup headers SIGNATURE_HEADER).getD ""

/-- Timestamp header resolved from the headers with the lowercase fallback. -/
def tsOf (headers : String → Option String) : Option String :=
  headerLookup headers TIMESTAMP_HEADER

/-- Embeds `verify` from webhook.rs. The current clock is an explicit
parameter; the Rust code reads it from Utc::now. The supplied tolerance is
used as-is after defaulting an absent one to DEFAULT_TOLERANCE_SECONDS. -/
def verify (payload : List Nat) (headers : String → Option String) (secret : String)
    (tolerance_seconds : Option Int) (now : Int) : Bool :=
  let tolerance := tolerance_seconds.getD DEFAULT_TOLERANCE_SECONDS
  let signature := sigOf headers
  if signature = "" then false
  else
    match tsOf headers with
    | some tsStr =>
      match parseInt tsStr with
      | some timestamp =>
        if ((now - timestamp).natAbs : Int) > tolerance then false
        else verify_signature payload signature secret
      | none => false
    | none => verify_signature payload signature secret

/-- The tolerance value that `construct_event` computes before calling
`verify`: a supplied zero becomes the default, an absent value becomes the
default, any other supplied value is kept. -/
def adjTolerance (tolerance_seconds : Option Int) : Int :=
  if tolerance_seconds = some 0 then DEFAULT_TOLERANCE_SECONDS
  else tolerance_seconds.getD DEFAULT_TOLERANCE_SECONDS

/-- Embeds `construct_event` from webhook.rs: a supplied tolerance of exactly
zero is replaced by the default before `verify` runs; then the payload is
decoded as a WebhookEvent and its id and event type must be nonempty.
Error messages are modelled as the fixed prefixes used in the source. -/
def construct_event (payload : List Nat) (headers : String → Option String) (secret : String)
    (tolerance_seconds : Option Int) (now : Int) : Except LinktorError WebhookEvent :=
  let tolerance := adjTolerance tolerance_seconds
  if !verify payload headers secret (some tolerance) now then
    Except.error (.WebhookVerification "Webhook signature verification failed")
  else
    match decodeWebhookEvent payload with
    | none => Except.error (.WebhookVerification "Failed to parse webhook event")
    | some event =>
      if event.id = "" || event.event_type = "" then
        Except.error (.WebhookVerification "Invalid webhook event structure")
      else Except.ok event

/- ===== Request orchestrator (src/sdks/rust/src/client.rs) ===== -/

/-- The parts of an HTTP response consumed by `LinktorClient::request`:
status code, the Retry-After and X-Request-ID headers, and the body text. -/
structure HttpResponse where
  status : Nat
  retryAfterHeader : Option String
  requestIdHeader : Option String
  bodyText : String

/-- Result of decoding a body as the target type, with serde failure
surfaced through the Serialization variant as the question-mark operator of
the source does. -/
def decodeResult (o : Option α) : Except LinktorError α :=
  match o with
  | some v => Except.ok v
  | none => Except.error (.Serialization "error decoding response body")

/-- Embeds the 2xx branch of `LinktorClient::request`: an empty body decodes
the JSON null; otherwise the body is tried as the `ApiResponse` envelope and
its data is returned when the envelope decodes with success marked and data
present; in every other case the raw JSON is decoded directly as the target. -/
def handleSuccessJson (decT : Json → Option α) (j : Json) : Except LinktorError α :=
  match decodeEnvelope decT j with
  | some env =>
    match env.success, env.data with
    | true, some v => Except.ok v
    | _, _ => decodeResult (decT j)
  | none => decodeResult (decT j)

/-- The 2xx branch of `LinktorClient::request` on the body text. -/
def handleSuccess (decT : Json → Option α) (text : String) : Except LinktorError α :=
  if text = "" then decodeResult (decT Json.null)
  else
    match parseJsonStr text with
    | some j => handleSuccessJson decT j
    | none => Except.error (.Serialization "error decoding response body")

/-- Embeds the error-translation step of `LinktorClient::request`: the body
is tried as a structured ApiError to extract its message, falling back to
the raw body text. -/
def extractMessage (text : String) : String :=
  match parseJsonStr text with
  | some j =>
    match decodeApiError j with
    | some e => e.message
    | none => text
  | none => text

/-- The retry sleep for a 429 response: the parsed Retry-After header value
in seconds, defaulting to 60. -/
def retryAfterOf (r : HttpResponse) : Nat :=
  (r.retryAfterHeader.bind parseNatU64).getD 60

/-- Embeds the retry loop of `LinktorClient::request`. The transport is
modelled as the function from the attempt number (counted from 1, as the
source increments before sending) to the response received; the returned
pair collects the sleep durations of the retries taken, in order, and the
final result. Fuel bounds the recursion: the loop recurses only while the
attempt count is below the retry ceiling, the entry point supplies more fuel
than the ceiling allows retries, making the zero-fuel branch unreachable;
that branch handles the response exactly as the source does when no retries
remain. -/
def requestLoop (decT : Json → Option α) (resp : Nat → HttpResponse) (maxRetries : Nat) :
    Nat → Nat → List Nat × Except LinktorError α
  | attempt, 0 =>
    let r := resp attempt
    if 200 ≤ r.status && r.status ≤ 299 then
      ([], handleSuccess decT r.bodyText)
    else
      ([], Except.error (LinktorError.from_status r.status (extractMessage r.bodyText)
        r.requestIdHeader))
  | attempt, fuel + 1 =>
    let r := resp attempt
    if 200 ≤ r.status && r.status ≤ 299 then
      ([], handleSuccess decT r.bodyText)
    else if r.status = 429 && attempt < maxRetries then
      let rec429 := requestLoop decT resp maxRetries (attempt + 1) fuel
      (retryAfterOf r :: rec429.1, rec429.2)
    else if (500 ≤ r.status && r.status ≤ 599) && attempt < maxRetries then
      let rec5xx := requestLoop decT resp maxRetries (attempt + 1) fuel
      (2 ^ attempt :: rec5xx.1, rec5xx.2)
    else
      ([], Except.error (LinktorError.from_status r.status (extractMessage r.bodyText)
        r.requestIdHeader))

/-- Embeds `LinktorClient::request`: one logical call, starting at attempt 1
with enough fuel for the configured retry ceiling. -/
def requestCall (decT : Json → Option α) (resp : Nat → HttpResponse) (maxRetries : Nat) :
    List Nat × Except LinktorError α :=
  requestLoop decT resp maxRetries 1 (maxRetries + 1)

/-- Number of attempts issued by a call: one more than the number of
backoff sleeps, since every retry is preceded by exactly one sleep. -/
def attemptsMade (outcome : List Nat × Except LinktorError α) : Nat :=
  outcome.1.length + 1

/- ===== Derived predicates and concrete fixtures ===== -/

/-- Whether an error is of the WebhookVerification kind. -/
def isWebhookVerificationError : LinktorError → Bool
  | .WebhookVerification _ => true
  | _ => false

/-- Whether a JSON value decodes as an envelope that marks success and
carries a data payload, for the given target decoder. -/
def isSuccEnvData (decT : Json → Option α) (j : Json) : Bool :=
  match decodeEnvelope decT j with
  | some env => env.success && env.data.isSome
  | none => false

/-- A status code handled by a dedicated arm of `from_status`. -/
def statusRecognized (status : Nat) : Bool :=
  status = 400 || status = 401 || status = 403 || status = 404 || status = 429
    || (500 ≤ status && status ≤ 599)

/-- The target decoder of the serde_json Value type, which accepts any JSON. -/
def decId : Json → Option Json := fun j => some j

/-- The target decoder of a struct with a single boolean field named success,
with the unknown fields of the object ignored as serde does by default. -/
def decSucc : Json → Option Bool := fun j =>
  match j with
  | Json.obj fields =>
    match List.lookup "success" fields with
    | some (Json.bool b) => some b
    | _ => none
  | _ => none

/-- A concrete webhook event payload. -/
def wPayload : List Nat :=
  asciiBytes "\x7b\"id\":\"e1\",\"type\":\"message.received\",\"timestamp\":\"2024-01-01T00:00:00Z\",\"tenantId\":\"t1\"\x7d"

/-- The signature of the concrete payload under the secret s. -/
def wSig : String := compute_signature wPayload "s"

/-- Headers carrying the valid signature and the timestamp 100. -/
def wHeadersTs : String → Option String := fun k =>
  if k = SIGNATURE_HEADER then some wSig
  else if k = TIMESTAMP_HEADER then some "100" else none

/-- Headers carrying the valid signature and no timestamp. -/
def wHeadersNoTs : String → Option String := fun k =>
  if k = SIGNATURE_HEADER then some wSig else none

/-- A transport that answers 500 with an empty body on every attempt. -/
def respAll500 : Nat → HttpResponse := fun _ => ⟨500, none, none, ""⟩

/-- A transport that answers 429 on every attempt, with a Retry-After of 7
seconds, a request id, and an unstructured body. -/
def respAll429 : Nat → HttpResponse := fun _ => ⟨429, some "7", some "rid", "body"⟩

/- ===== Helper lemmas ===== -/

/-- A SHA-256 digest always has 32 bytes. -/
theorem sha256_length (msg : List Nat) : (sha256 msg).length = 32 := by
  simp [sha256, be32]

/-- Flattening two-character chunks doubles the length. -/
theorem hexPairs_flatten_length (bs : List Nat) :
    ((bs.map (fun b => [hexDigit (b / 16 % 16), hexDigit (b % 16)])).flatten).length
      = 2 * bs.length := by
  induction bs with
  | nil => rfl
  | cons b rest ih =>
    simp only [List.map_cons, List.flatten_cons, List.length_append, List.length_cons,
      List.length_nil]
    omega

/-- Hex encoding doubles the byte count as a character count. -/
theorem hexEncode_length (bs : List Nat) : (hexEncode bs).length = 2 * bs.length := by
  have h : (hexEncode bs).length
      = ((bs.map (fun b => [hexDigit (b / 16 % 16), hexDigit (b % 16)])).flatten).length := rfl
  rw [h]
  exact hexPairs_flatten_length bs

/-- The signature engine always produces 64 characters. -/
theorem compute_signature_length (payload : List Nat) (secret : String) :
    (compute_signature payload secret).length = 64 := by
  simp [compute_signature, hexEncode_length, sha256_length, hmacSha256]

/-- The accumulated XOR comparison of a character list with itself is the
initial accumulator. -/
theorem xorFold_self (l : List Char) (acc : Nat) :
    (List.zip l l).foldl (fun acc p => acc ||| (p.1.toNat ^^^ p.2.toNat)) acc = acc := by
  induction l generalizing acc with
  | nil => rfl
  | cons c rest ih => simp [ih]

/-- An empty supplied signature is rejected. -/
theorem verify_signature_empty_sig (payload : List Nat) (secret : String) :
    verify_signature payload "" secret = false := rfl

/-- from_status maps every 5xx status to the Server variant. -/
theorem from_status_server (status : Nat) (msg : String) (rid : Option String)
    (h1 : 500 ≤ status) (h2 : status ≤ 599) :
    LinktorError.from_status status msg rid = .Server msg rid := by
  unfold LinktorError.from_status
  rw [if_neg (by omega), if_neg (by omega), if_neg (by omega), if_neg (by omega),
    if_neg (by omega), if_pos (by simp; omega)]

/-- from_status builds a RateLimit error only with the fixed hint 60. -/
theorem from_status_rateLimit (status : Nat) (msg m : String) (rid rid2 : Option String)
    (ra : Nat) (h : LinktorError.from_status status msg rid = .RateLimit ra m rid2) :
    ra = 60 := by
  unfold LinktorError.from_status at h
  split_ifs at h <;> simp_all

/-- The 2xx branch never produces a RateLimit error. -/
theorem handleSuccess_ne_rateLimit (decT : Json → Option α) (text : String)
    (ra : Nat) (m : String) (rid : Option String) :
    handleSuccess decT text ≠ Except.error (.RateLimit ra m rid) := by
  have hd : ∀ o : Option α, decodeResult o ≠ Except.error (.RateLimit ra m rid) := by
    intro o
    cases o <;> simp [decodeResult]
  unfold handleSuccess handleSuccessJson
  split
  · exact hd _
  · split
    · split
      · split
        · simp
        · exact hd _
      · exact hd _
    · simp

/- ===== Claim C3 ===== -/

/-- Claim C3, counterexample: with a valid signature and a timestamp header
whose skew from now is 100 seconds, verify rejects under a supplied
tolerance of exactly 0 but accepts under 300, so a zero tolerance is not
treated as the default by verify, contrary to the claim. -/
theorem c3_zero_tolerance_counterexample :
    verify wPayload wHeadersTs "s" (some 0) 200 = false
    ∧ verify wPayload wHeadersTs "s" (some 300) 200 = true := by
  constructor <;> rfl

/-- Claim C3 as amended: construct_event treats a caller-supplied tolerance
of exactly 0 seconds as the default of 300 seconds, and an absent tolerance
likewise; verify, by contrast, uses a supplied tolerance as given, with only
an absent tolerance defaulting to 300. -/
theorem c3_zero_tolerance_amended (payload : List Nat) (headers : String → Option String)
    (secret : String) (now : Int) :
    construct_event payload headers secret (some 0) now
      = construct_event payload headers secret (some 300) now
    ∧ construct_event payload headers secret (some 0) now
      = construct_event payload headers secret none now
    ∧ verify payload headers secret none now = verify payload headers secret (some 300) now :=
  ⟨rfl, rfl, rfl⟩

/- ===== Claim C4 ===== -/

/-- Claim C4, counterexample: with an empty secret the sign-then-verify
round trip fails, because verify_signature rejects an empty secret before
comparing, so the round trip does not succeed for every secret. -/
theorem c4_empty_secret_counterexample :
    verify_signature wPayload (compute_signature wPayload "") "" = false := by
  unfold verify_signature
  rw [if_pos]
  simp

/-- Claim C4 as amended: for every payload and every nonempty secret the
sign-then-verify round trip succeeds, and verify_signature returns false
whenever the supplied signature has a different length from the expected
digest, regardless of content; an empty secret makes the round trip fail. -/
theorem c4_roundtrip_amended (payload : List Nat) (secret : String) :
    (secret ≠ "" → verify_signature payload (compute_signature payload secret) secret = true)
    ∧ (∀ signature : String, signature.length ≠ (compute_signature payload secret).length →
        verify_signature payload signature secret = false) := by
  have hcsne : compute_signature payload secret ≠ "" := by
    intro he
    have hl := compute_signature_length payload secret
    rw [he] at hl
    simp at hl
  constructor
  · intro hs
    simp only [verify_signature]
    rw [if_neg (by simp [hcsne, hs])]
    rw [if_neg (by simp)]
    rw [xorFold_self]
    rfl
  · intro signature hlen
    simp only [verify_signature]
    by_cases hsig : signature = ""
    · rw [if_pos (by simp [hsig])]
    · by_cases hsec : secret = ""
      · rw [if_pos (by simp [hsec])]
      · rw [if_neg (by simp [hsig, hsec])]
        rw [if_pos (by simp; omega)]

/-- Claim C4, witness: the round trip succeeds for a concrete payload and
the nonempty secret k, and a five-character signature is rejected. -/
theorem c4_roundtrip_amended_witness :
    verify_signature wPayload (compute_signature wPayload "k") "k" = true
    ∧ verify_signature wPayload "abcde" "k" = false :=
  ⟨(c4_roundtrip_amended wPayload "k").1 (by decide),
   (c4_roundtrip_amended wPayload "k").2 "abcde"
     (by rw [compute_signature_length]; decide)⟩

/- ===== Claim C9 ===== -/

/-- Claim C9, counterexample: the status 418 maps to the Unknown variant,
which drops the supplied correlation id instead of carrying it, so not
every status-derived error carries the correlation id when available. -/
theorem c9_unknown_drops_request_id :
    LinktorError.from_status 418 "m" (some "r") = .Unknown "m" (some 418)
    ∧ (LinktorError.from_status 418 "m" (some "r")).request_id ≠ some "r" := by
  constructor
  · rfl
  · decide

/-- Claim C9 as amended: from_status maps 400 to Validation, 401 to
Authentication, 403 to Authorization, 404 to NotFound, 429 to RateLimit,
any 5xx status to Server, and any other status to Unknown carrying the raw
numeric status; the errors of the recognized statuses carry the extracted
message and the correlation id when available, while the Unknown variant
carries the message but no correlation id. -/
theorem c9_status_mapping_amended (status : Nat) (msg : String) (rid : Option String) :
    LinktorError.from_status 400 msg rid = .Validation msg rid
    ∧ LinktorError.from_status 401 msg rid = .Authentication msg rid
    ∧ LinktorError.from_status 403 msg rid = .Authorization msg rid
    ∧ LinktorError.from_status 404 msg rid = .NotFound msg rid
    ∧ LinktorError.from_status 429 msg rid = .RateLimit 60 msg rid
    ∧ (500 ≤ status → status ≤ 599 → LinktorError.from_status status msg rid = .Server msg rid)
    ∧ (statusRecognized status = true → (LinktorError.from_status status msg rid).request_id = rid)
    ∧ (statusRecognized status = false →
        LinktorError.from_status status msg rid = .Unknown msg (some status)
          ∧ (LinktorError.from_status status msg rid).request_id = none) := by
  refine ⟨rfl, rfl, rfl, rfl, rfl, from_status_server status msg rid, ?_, ?_⟩
  · intro hrec
    simp only [statusRecognized, Bool.or_eq_true, Bool.and_eq_true, decide_eq_true_eq] at hrec
    unfold LinktorError.from_status
    split_ifs <;> simp_all [LinktorError.request_id] <;> omega
  · intro hrec
    simp only [statusRecognized, Bool.or_eq_true, Bool.and_eq_true, decide_eq_true_eq,
      Bool.or_eq_false_iff, Bool.and_eq_false_iff, decide_eq_false_iff_not] at hrec
    unfold LinktorError.from_status
    split_ifs <;> simp_all [LinktorError.request_id] <;> omega

/-- Claim C9, witness: the 5xx and recognized-status conjuncts applied at
status 550 with a concrete correlation id, and the unrecognized conjunct at
status 418. -/
theorem c9_status_mapping_amended_witness :
    LinktorError.from_status 550 "m" (some "r") = .Server "m" (some "r")
    ∧ (LinktorError.from_status 550 "m" (some "r")).request_id = some "r"
    ∧ LinktorError.from_status 418 "m" (some "r") = .Unknown "m" (some 418) :=
  ⟨(c9_status_mapping_amended 550 "m" (some "r")).2.2.2.2.2.1 (by decide) (by decide),
   (c9_status_mapping_amended 550 "m" (some "r")).2.2.2.2.2.2.1 (by decide),
   ((c9_status_mapping_amended 418 "m" (some "r")).2.2.2.2.2.2.2 (by decide)).1⟩

/- ===== Claim C7 ===== -/

/-- Claim C7: verify returns false whenever the signature header, resolved
with the canonical name first and the all-lowercase name as fallback, is
absent or empty, regardless of payload, secret, tolerance, and timestamp. -/
theorem c7_missing_signature (payload : List Nat) (headers : String → Option String)
    (secret : String) (tolerance_seconds : Option Int) (now : Int)
    (habs : (headers SIGNATURE_HEADER = none ∧ headers (lowerAscii SIGNATURE_HEADER) = none)
      ∨ headers SIGNATURE_HEADER = some ""
      ∨ (headers SIGNATURE_HEADER = none ∧ headers (lowerAscii SIGNATURE_HEADER) = some "")) :
    verify payload headers secret tolerance_seconds now = false := by
  have hsig : sigOf headers = "" := by
    rcases habs with ⟨h1, h2⟩ | h1 | ⟨h1, h2⟩
    · simp [sigOf, headerLookup, h1, h2]
    · simp [sigOf, headerLookup, h1]
    · simp [sigOf, headerLookup, h1, h2]
  simp [verify, hsig]

/-- Claim C7, witness: an entirely empty header map is rejected. -/
theorem c7_missing_signature_witness :
    verify wPayload (fun _ => none) "s" none 0 = false :=
  c7_missing_signature wPayload (fun _ => none) "s" none 0 (Or.inl ⟨rfl, rfl⟩)

/- ===== Claim C8 ===== -/

/-- Claim C8: when no timestamp header is present under either casing,
verify performs no timestamp check and its result is exactly the signature
comparison on the resolved signature header. -/
theorem c8_no_timestamp_skips_check (payload : List Nat) (headers : String → Option String)
    (secret : String) (tolerance_seconds : Option Int) (now : Int)
    (h1 : headers TIMESTAMP_HEADER = none)
    (h2 : headers (lowerAscii TIMESTAMP_HEADER) = none) :
    verify payload headers secret tolerance_seconds now
      = verify_signature payload (sigOf headers) secret := by
  have hts : tsOf headers = none := by
    simp [tsOf, headerLookup, h1, h2]
  by_cases hsig : sigOf headers = ""
  · rw [hsig]
    simp [verify, hsig, verify_signature]
  · simp [verify, hsig, hts]

/-- Claim C8, witness: with a valid signature and no timestamp header the
theorem applies and both sides evaluate to acceptance. -/
theorem c8_no_timestamp_skips_check_witness :
    verify wPayload wHeadersNoTs "s" none 0
      = verify_signature wPayload (sigOf wHeadersNoTs) "s"
    ∧ verify wPayload wHeadersNoTs "s" none 0 = true :=
  ⟨c8_no_timestamp_skips_check wPayload wHeadersNoTs "s" none 0 (by rfl) (by rfl), by rfl⟩

/- ===== Claim C6 ===== -/

/-- Claim C6: when the timestamp header is present and parses as an integer,
verify returns false exactly when the absolute skew strictly exceeds the
effective tolerance or the signature comparison fails, the boundary skew
being accepted; an unparseable timestamp header makes verify return false. -/
theorem c6_timestamp_window (payload : List Nat) (headers : String → Option String)
    (secret : String) (tolerance_seconds : Option Int) (now : Int) (ts : String)
    (hts : tsOf headers = some ts) :
    (∀ t, parseInt ts = some t →
      (verify payload headers secret tolerance_seconds now = false ↔
        (((now - t).natAbs : Int) > tolerance_seconds.getD DEFAULT_TOLERANCE_SECONDS
          ∨ verify_signature payload (sigOf headers) secret = false)))
    ∧ (parseInt ts = none → verify payload headers secret tolerance_seconds now = false) := by
  constructor
  · intro t hpt
    by_cases hsig : sigOf headers = ""
    · constructor
      · intro _
        right
        rw [hsig]
        exact verify_signature_empty_sig payload secret
      · intro _
        simp [verify, hsig]
    · simp only [verify, hts, hpt]
      rw [if_neg hsig]
      by_cases hskew : ((now - t).natAbs : Int) > tolerance_seconds.getD DEFAULT_TOLERANCE_SECONDS
      · rw [if_pos hskew]
        constructor
        · intro _
          left
          exact hskew
        · intro _
          rfl
      · rw [if_neg hskew]
        constructor
        · intro hvf
          right
          exact hvf
        · rintro (hc | hc)
          · exact absurd hc hskew
          · exact hc
  · intro hpn
    by_cases hsig : sigOf headers = ""
    · simp [verify, hsig]
    · simp [verify, hts, hpn, hsig]

/-- Claim C6, witness: with the concrete timestamp header 100 and now equal
to 200, the characterization applies; the defaulted tolerance 300 admits the
skew of 100 and the valid signature is accepted, so verify returns true. -/
theorem c6_timestamp_window_witness :
    (verify wPayload wHeadersTs "s" none 200 = false ↔
      (((200 - 100 : Int).natAbs : Int) > (none : Option Int).getD DEFAULT_TOLERANCE_SECONDS
        ∨ verify_signature wPayload (sigOf wHeadersTs) "s" = false))
    ∧ verify wPayload wHeadersTs "s" none 200 = true :=
  ⟨(c6_timestamp_window wPayload wHeadersTs "s" none 200 "100" rfl).1 100 rfl, by rfl⟩

/- ===== Claim C2 ===== -/

/-- A present non-null field value decodes through the optional-field rule
by its own decoder. -/
theorem decodeOptField_some_notNull (dec : Json → Option β)
    (fields : List (String × Json)) (key : String) (X : Json)
    (hl : List.lookup key fields = some X) (hX : X ≠ Json.null) :
    decodeOptField dec fields key = (dec X).map some := by
  unfold decodeOptField
  rw [hl]
  cases X
  · exact absurd rfl hX
  all_goals rfl

/-- Wrapping a decodable non-null value in a success envelope decodes as the
envelope with that value as data. -/
theorem decodeEnvelope_wrap (decT : Json → Option α) (X : Json) (v : α)
    (hv : decT X = some v) (hX : X ≠ Json.null) :
    decodeEnvelope decT (Json.obj [("success", Json.bool true), ("data", X)])
      = some ⟨true, some v, none⟩ := by
  have hlookup : List.lookup "data" [("success", Json.bool true), ("data", X)] = some X := rfl
  simp only [decodeEnvelope]
  rw [show List.lookup "success" [("success", Json.bool true), ("data", X)]
      = some (Json.bool true) from rfl]
  rw [decodeOptField_some_notNull decT _ "data" X hlookup hX, hv]
  rfl

/-- A value that does not decode as a success envelope with data is handled
by the direct fallback decode. -/
theorem handleSuccessJson_fallback (decT : Json → Option α) (j : Json)
    (hnse : isSuccEnvData decT j = false) :
    handleSuccessJson decT j = decodeResult (decT j) := by
  unfold handleSuccessJson
  unfold isSuccEnvData at hnse
  cases henv : decodeEnvelope decT j with
  | none => rfl
  | some env =>
    rw [henv] at hnse
    rcases env with ⟨esucc, edata, eerr⟩
    cases esucc <;> cases edata <;> simp_all

/-- Claim C2, counterexample: for the target type with a single boolean
field named success, the wrapped body with data 5 decodes to the fallback
value ok true, while the bare body 5 fails to decode, so a wrapped body does
not always decode to the same result as the bare body. -/
theorem c2_wrapped_vs_bare_counterexample :
    handleSuccess decSucc "\x7b\"success\":true,\"data\":5\x7d" = Except.ok true
    ∧ handleSuccess decSucc "5"
        = Except.error (.Serialization "error decoding response body")
    ∧ handleSuccess decSucc "\x7b\"success\":true,\"data\":5\x7d"
        ≠ handleSuccess decSucc "5" := by
  refine ⟨rfl, rfl, ?_⟩
  intro h
  rw [show handleSuccess decSucc "\x7b\"success\":true,\"data\":5\x7d" = Except.ok true
      from rfl] at h
  rw [show handleSuccess decSucc "5"
      = Except.error (LinktorError.Serialization "error decoding response body") from rfl] at h
  exact Except.noConfusion h

/-- Claim C2 as amended: for every target decoder, an empty body decodes the
JSON null; a body that decodes as the envelope with success marked and data
present yields that data; in every other case, including envelope decode
failure, success false, or data absent, the raw body is decoded directly;
and a wrapped body with a non-null payload that decodes as the target and is
not itself a success envelope carrying data decodes to the same result as
the bare payload, both yielding the payload decoded as the target. -/
theorem c2_success_decoding_amended {α : Type} (decT : Json → Option α) :
    (handleSuccess decT "" = decodeResult (decT Json.null))
    ∧ (∀ text j env v, parseJsonStr text = some j → text ≠ "" →
        decodeEnvelope decT j = some env → env.success = true → env.data = some v →
        handleSuccess decT text = Except.ok v)
    ∧ (∀ text j, parseJsonStr text = some j → text ≠ "" →
        isSuccEnvData decT j = false →
        handleSuccess decT text = decodeResult (decT j))
    ∧ (∀ X v, decT X = some v → X ≠ Json.null → isSuccEnvData decT X = false →
        handleSuccessJson decT (Json.obj [("success", Json.bool true), ("data", X)])
            = Except.ok v
          ∧ handleSuccessJson decT X = Except.ok v) := by
  refine ⟨rfl, ?_, ?_, ?_⟩
  · intro text j env v hp hne henv hsucc hdata
    have hsj : handleSuccess decT text = handleSuccessJson decT j := by
      unfold handleSuccess
      rw [if_neg hne, hp]
    rw [hsj]
    unfold handleSuccessJson
    simp only [henv, hsucc, hdata]
  · intro text j hp hne hnse
    have hsj : handleSuccess decT text = handleSuccessJson decT j := by
      unfold handleSuccess
      rw [if_neg hne, hp]
    rw [hsj]
    exact handleSuccessJson_fallback decT j hnse
  · intro X v hv hX hnse
    constructor
    · unfold handleSuccessJson
      rw [decodeEnvelope_wrap decT X v hv hX]
    · rw [handleSuccessJson_fallback decT X hnse, hv]
      rfl

/-- Claim C2, witness: with the serde_json Value target, the envelope case
applied to the wrapped body with data id x yields the bare object, and the
repaired wrapped-versus-bare equivalence applied to the number 7 yields ok 7
on both sides. -/
theorem c2_success_decoding_amended_witness :
    handleSuccess decId "\x7b\"success\":true,\"data\":\x7b\"id\":\"x\"\x7d\x7d"
      = Except.ok (Json.obj [("id", Json.str "x")])
    ∧ (handleSuccessJson decId
        (Json.obj [("success", Json.bool true), ("data", Json.num 7)])
          = Except.ok (Json.num 7)
      ∧ handleSuccessJson decId (Json.num 7) = Except.ok (Json.num 7)) :=
  ⟨(c2_success_decoding_amended decId).2.1
      "\x7b\"success\":true,\"data\":\x7b\"id\":\"x\"\x7d\x7d"
      (Json.obj [("success", Json.bool true), ("data", Json.obj [("id", Json.str "x")])])
      ⟨true, some (Json.obj [("id", Json.str "x")]), none⟩
      (Json.obj [("id", Json.str "x")])
      (by rfl) (by decide) (by rfl) rfl rfl,
   (c2_success_decoding_amended decId).2.2.2 (Json.num 7) (Json.num 7)
      rfl (by intro h; exact Json.noConfusion h) (by rfl)⟩

/- ===== Claim C5 ===== -/

/-- Claim C5: construct_event returns an error exactly of the
WebhookVerification kind precisely when verify fails with the adjusted
tolerance, or the payload does not decode as a WebhookEvent, or the decoded
id or event type is empty; every Ok result carries the decoded event and
implies that verify passed and both strings are nonempty; and whenever none
of the failure conditions holds the decoded event is returned, so no event
reaches a caller without the signature and timestamp gate having passed. -/
theorem c5_construct_event_characterization (payload : List Nat)
    (headers : String → Option String) (secret : String) (tolerance_seconds : Option Int)
    (now : Int) :
    ((∃ e, construct_event payload headers secret tolerance_seconds now = Except.error e
        ∧ isWebhookVerificationError e = true) ↔
      (verify payload headers secret (some (adjTolerance tolerance_seconds)) now = false
        ∨ decodeWebhookEvent payload = none
        ∨ ∃ ev, decodeWebhookEvent payload = some ev ∧ (ev.id = "" ∨ ev.event_type = "")))
    ∧ (∀ ev, construct_event payload headers secret tolerance_seconds now = Except.ok ev →
        decodeWebhookEvent payload = some ev
          ∧ verify payload headers secret (some (adjTolerance tolerance_seconds)) now = true
          ∧ ev.id ≠ "" ∧ ev.event_type ≠ "")
    ∧ (∀ ev, verify payload headers secret (some (adjTolerance tolerance_seconds)) now = true →
        decodeWebhookEvent payload = some ev → ev.id ≠ "" → ev.event_type ≠ "" →
        construct_event payload headers secret tolerance_seconds now = Except.ok ev) := by
  by_cases hv : verify payload headers secret (some (adjTolerance tolerance_seconds)) now = true
  · cases hd : decodeWebhookEvent payload with
    | none =>
      have hc : construct_event payload headers secret tolerance_seconds now
          = Except.error (.WebhookVerification "Failed to parse webhook event") := by
        simp [construct_event, hv, hd]
      refine ⟨iff_of_true ⟨_, hc, rfl⟩ (Or.inr (Or.inl rfl)), ?_, ?_⟩
      · intro ev hok
        rw [hc] at hok
        exact Except.noConfusion hok
      · intro ev _ hd2 _ _
        exact Option.noConfusion hd2
    | some ev0 =>
      by_cases hempty : ev0.id = "" ∨ ev0.event_type = ""
      · have hc : construct_event payload headers secret tolerance_seconds now
            = Except.error (.WebhookVerification "Invalid webhook event structure") := by
          rcases hempty with h | h
          · simp [construct_event, hv, hd, h]
          · simp [construct_event, hv, hd, h]
        refine ⟨iff_of_true ⟨_, hc, rfl⟩ (Or.inr (Or.inr ⟨ev0, rfl, hempty⟩)), ?_, ?_⟩
        · intro ev hok
          rw [hc] at hok
          exact Except.noConfusion hok
        · intro ev _ hd2 hid htype
          injection hd2 with he
          subst he
          rcases hempty with h | h
          · exact absurd h hid
          · exact absurd h htype
      · rw [not_or] at hempty
        have hc : construct_event payload headers secret tolerance_seconds now
            = Except.ok ev0 := by
          simp only [construct_event, hv, hd, Bool.not_true, Bool.false_eq_true, if_false]
          rw [if_neg (by simp [hempty.1, hempty.2])]
        refine ⟨?_, ?_, ?_⟩
        · constructor
          · rintro ⟨e, he, _⟩
            rw [hc] at he
            exact Except.noConfusion he
          · rintro (h | h | ⟨ev, hdev, hor⟩)
            · rw [hv] at h
              exact Bool.noConfusion h
            · exact Option.noConfusion h
            · injection hdev with he
              subst he
              rcases hor with h | h
              · exact absurd h hempty.1
              · exact absurd h hempty.2
        · intro ev hok
          rw [hc] at hok
          injection hok with he
          subst he
          exact ⟨rfl, hv, hempty.1, hempty.2⟩
        · intro ev _ hd2 _ _
          injection hd2 with he
          subst he
          exact hc
  · have hvf : verify payload headers secret (some (adjTolerance tolerance_seconds)) now
        = false := by
      cases h : verify payload headers secret (some (adjTolerance tolerance_seconds)) now
      · rfl
      · exact absurd h hv
    have hc : construct_event payload headers secret tolerance_seconds now
        = Except.error (.WebhookVerification "Webhook signature verification failed") := by
      simp [construct_event, hvf]
    refine ⟨iff_of_true ⟨_, hc, rfl⟩ (Or.inl hvf), ?_, ?_⟩
    · intro ev hok
      rw [hc] at hok
      exact Except.noConfusion hok
    · intro ev hv2 _ _ _
      rw [hvf] at hv2
      exact Bool.noConfusion hv2

/-- Claim C5, witness: a fully valid concrete webhook with a correct
signature and no timestamp header constructs the decoded event. -/
theorem c5_construct_event_characterization_witness :
    construct_event wPayload wHeadersNoTs "s" none 0
      = Except.ok ⟨"e1", "message.received", "2024-01-01T00:00:00Z", "t1", none⟩ :=
  (c5_construct_event_characterization wPayload wHeadersNoTs "s" none 0).2.2
    ⟨"e1", "message.received", "2024-01-01T00:00:00Z", "t1", none⟩
    (by rfl) (by rfl) (by decide) (by decide)

/- ===== Orchestrator step lemmas ===== -/

/-- A 5xx response with attempts remaining sleeps two to the power of the
attempt number and retries. -/
theorem requestLoop_5xx_retry (decT : Json → Option α) (resp : Nat → HttpResponse)
    (maxRetries attempt fuel : Nat)
    (h5 : 500 ≤ (resp attempt).status) (h5b : (resp attempt).status ≤ 599)
    (hlt : attempt < maxRetries) :
    requestLoop decT resp maxRetries attempt (fuel + 1)
      = (2 ^ attempt :: (requestLoop decT resp maxRetries (attempt + 1) fuel).1,
         (requestLoop decT resp maxRetries (attempt + 1) fuel).2) := by
  simp only [requestLoop]
  rw [if_neg (by simp only [Bool.and_eq_true, decide_eq_true_eq]; omega),
      if_neg (by simp only [Bool.and_eq_true, decide_eq_true_eq]; omega),
      if_pos (by simp only [Bool.and_eq_true, decide_eq_true_eq]; omega)]

/-- A 429 response with attempts remaining sleeps the parsed Retry-After
value, defaulting to 60, and retries. -/
theorem requestLoop_429_retry (decT : Json → Option α) (resp : Nat → HttpResponse)
    (maxRetries attempt fuel : Nat)
    (h429 : (resp attempt).status = 429) (hlt : attempt < maxRetries) :
    requestLoop decT resp maxRetries attempt (fuel + 1)
      = (retryAfterOf (resp attempt)
          :: (requestLoop decT resp maxRetries (attempt + 1) fuel).1,
         (requestLoop decT resp maxRetries (attempt + 1) fuel).2) := by
  simp only [requestLoop]
  rw [if_neg (by simp only [Bool.and_eq_true, decide_eq_true_eq]; omega),
      if_pos (by simp only [Bool.and_eq_true, decide_eq_true_eq]; omega)]

/-- A non-2xx response with no retry available is translated to the typed
error carrying the extracted message and the correlation id. -/
theorem requestLoop_no_retry (decT : Json → Option α) (resp : Nat → HttpResponse)
    (maxRetries attempt fuel : Nat)
    (hns : ¬(200 ≤ (resp attempt).status ∧ (resp attempt).status ≤ 299))
    (h429 : ¬((resp attempt).status = 429 ∧ attempt < maxRetries))
    (h5xx : ¬((500 ≤ (resp attempt).status ∧ (resp attempt).status ≤ 599)
      ∧ attempt < maxRetries)) :
    requestLoop decT resp maxRetries attempt (fuel + 1)
      = ([], Except.error (LinktorError.from_status (resp attempt).status
          (extractMessage (resp attempt).bodyText) (resp attempt).requestIdHeader)) := by
  simp only [requestLoop]
  rw [if_neg (by simp only [Bool.and_eq_true, decide_eq_true_eq]; exact hns),
      if_neg (by simp only [Bool.and_eq_true, decide_eq_true_eq]; exact h429),
      if_neg (by simp only [Bool.and_eq_true, decide_eq_true_eq]; exact h5xx)]

/-- Every RateLimit error the loop can produce carries the hint 60. -/
theorem requestLoop_rateLimit_hint (decT : Json → Option α) (resp : Nat → HttpResponse)
    (maxRetries : Nat) :
    ∀ fuel attempt ra m rid,
      (requestLoop decT resp maxRetries attempt fuel).2
          = Except.error (.RateLimit ra m rid) → ra = 60 := by
  intro fuel
  induction fuel with
  | zero =>
    intro attempt ra m rid h
    simp only [requestLoop] at h
    split_ifs at h
    · exact absurd h (handleSuccess_ne_rateLimit decT _ ra m rid)
    · have h2 : LinktorError.from_status (resp attempt).status
          (extractMessage (resp attempt).bodyText) (resp attempt).requestIdHeader
            = .RateLimit ra m rid := by simpa using h
      exact from_status_rateLimit _ _ _ _ _ _ h2
  | succ fuel ih =>
    intro attempt ra m rid h
    simp only [requestLoop] at h
    split_ifs at h
    · exact absurd h (handleSuccess_ne_rateLimit decT _ ra m rid)
    · exact ih (attempt + 1) ra m rid h
    · exact ih (attempt + 1) ra m rid h
    · have h2 : LinktorError.from_status (resp attempt).status
          (extractMessage (resp attempt).bodyText) (resp attempt).requestIdHeader
            = .RateLimit ra m rid := by simpa using h
      exact from_status_rateLimit _ _ _ _ _ _ h2

/-- The final result of the loop does not depend on the Retry-After headers
of the responses: they influence only the sleep durations. -/
theorem requestLoop_result_congr (decT : Json → Option α) (resp resp2 : Nat → HttpResponse)
    (maxRetries : Nat)
    (hsame : ∀ i, (resp2 i).status = (resp i).status
      ∧ (resp2 i).bodyText = (resp i).bodyText
      ∧ (resp2 i).requestIdHeader = (resp i).requestIdHeader) :
    ∀ fuel attempt, (requestLoop decT resp2 maxRetries attempt fuel).2
        = (requestLoop decT resp maxRetries attempt fuel).2 := by
  intro fuel
  induction fuel with
  | zero =>
    intro attempt
    obtain ⟨hs, hb, hr⟩ := hsame attempt
    simp only [requestLoop]
    rw [hs, hb, hr]
  | succ fuel ih =>
    intro attempt
    obtain ⟨hs, hb, hr⟩ := hsame attempt
    simp only [requestLoop]
    rw [hs, hb, hr]
    split_ifs
    · rfl
    · exact ih (attempt + 1)
    · exact ih (attempt + 1)
    · rfl

/- ===== Claim C1 ===== -/

/-- Claim C1: with the retry ceiling 3, three consecutive 5xx responses
produce exactly 3 attempts with backoff sleeps of 2 then 4 seconds, and the
call returns a Server error carrying the message extracted from the final
body and its correlation id. -/
theorem c1_server_retry_exhaustion (decT : Json → Option α) (resp : Nat → HttpResponse)
    (h5xx : ∀ i, 1 ≤ i → i ≤ 3 → 500 ≤ (resp i).status ∧ (resp i).status ≤ 599) :
    requestCall decT resp 3
      = ([2, 4], Except.error (.Server (extractMessage (resp 3).bodyText)
          (resp 3).requestIdHeader))
    ∧ attemptsMade (requestCall decT resp 3) = 3 := by
  obtain ⟨h1a, h1b⟩ := h5xx 1 (by omega) (by omega)
  obtain ⟨h2a, h2b⟩ := h5xx 2 (by omega) (by omega)
  obtain ⟨h3a, h3b⟩ := h5xx 3 (by omega) (by omega)
  have e1 := requestLoop_5xx_retry decT resp 3 1 3 h1a h1b (by omega)
  have e2 := requestLoop_5xx_retry decT resp 3 2 2 h2a h2b (by omega)
  have e3 := requestLoop_no_retry decT resp 3 3 1 (by omega) (by omega) (by omega)
  have hmain : requestCall decT resp 3
      = ([2, 4], Except.error (.Server (extractMessage (resp 3).bodyText)
          (resp 3).requestIdHeader)) := by
    show requestLoop decT resp 3 1 4 = _
    rw [show (4 : Nat) = 3 + 1 from rfl, e1]
    rw [show (3 : Nat) = 2 + 1 from rfl, show (1 + 1 : Nat) = 2 from rfl, e2]
    rw [show (2 : Nat) = 1 + 1 from rfl, show (2 + 1 : Nat) = 3 from rfl, e3]
    rw [from_status_server (resp 3).status _ _ h3a h3b]
    norm_num
  exact ⟨hmain, by rw [hmain]; rfl⟩

/-- Claim C1, witness: the all-500 transport with the default ceiling 3
yields sleeps of 2 and 4 seconds, 3 attempts, and a Server error. -/
theorem c1_server_retry_exhaustion_witness :
    requestCall decId respAll500 3 = ([2, 4], Except.error (.Server "" none))
    ∧ attemptsMade (requestCall decId respAll500 3) = 3 := by
  have h : ∀ i, 1 ≤ i → i ≤ 3 →
      500 ≤ (respAll500 i).status ∧ (respAll500 i).status ≤ 599 := by
    intro i _ _
    constructor
    · show (500 : Nat) ≤ 500
      omega
    · show (500 : Nat) ≤ 599
      omega
  exact c1_server_retry_exhaustion decId respAll500 h

/- ===== Claim C10 ===== -/

/-- Claim C10: a RateLimit error reaching the caller always carries the
retry hint 60 regardless of any Retry-After header; a 429 response with
attempts remaining sleeps the parsed Retry-After value, defaulting to 60;
and the final result of a call is unchanged by any change confined to the
Retry-After headers of the responses. -/
theorem c10_rate_limit_hint (decT : Json → Option α) (resp : Nat → HttpResponse)
    (maxRetries : Nat) :
    (∀ ra m rid, (requestCall decT resp maxRetries).2
        = Except.error (.RateLimit ra m rid) → ra = 60)
    ∧ (∀ attempt fuel, (resp attempt).status = 429 → attempt < maxRetries →
        requestLoop decT resp maxRetries attempt (fuel + 1)
          = (retryAfterOf (resp attempt)
              :: (requestLoop decT resp maxRetries (attempt + 1) fuel).1,
             (requestLoop decT resp maxRetries (attempt + 1) fuel).2))
    ∧ (∀ resp2 : Nat → HttpResponse,
        (∀ i, (resp2 i).status = (resp i).status
          ∧ (resp2 i).bodyText = (resp i).bodyText
          ∧ (resp2 i).requestIdHeader = (resp i).requestIdHeader) →
        (requestCall decT resp2 maxRetries).2 = (requestCall decT resp maxRetries).2) := by
  refine ⟨?_, ?_, ?_⟩
  · intro ra m rid h
    exact requestLoop_rateLimit_hint decT resp maxRetries (maxRetries + 1) 1 ra m rid h
  · intro attempt fuel h429 hlt
    exact requestLoop_429_retry decT resp maxRetries attempt fuel h429 hlt
  · intro resp2 hsame
    exact requestLoop_result_congr decT resp resp2 maxRetries hsame (maxRetries + 1) 1

/-- Claim C10, witness: the all-429 transport with ceiling 3 ends in a
RateLimit error whose hint is 60 even though the header says 7, and the
first retry sleeps the parsed header value 7. -/
theorem c10_rate_limit_hint_witness :
    (60 : Nat) = 60
    ∧ requestLoop decId respAll429 3 1 3
        = (7 :: (requestLoop decId respAll429 3 2 2).1,
           (requestLoop decId respAll429 3 2 2).2) :=
  ⟨(c10_rate_limit_hint decId respAll429 3).1 60 "body" (some "rid") (by rfl),
   (c10_rate_limit_hint decId respAll429 3).2.1 1 2 rfl (by decide)⟩
